import Mathlib

/-!
Shallow embedding of `src/src/lib.rs`: the FIEMAP extent query
(`quick_extents`) and the absolute-seek position prober (`lseek_to`).

Machine integers (`u32`, `u64`, C `int`) are modelled as `Nat` / `Int`;
no arithmetic is performed on them in the source, so no overflow wrapping
is needed.  The kernel (ioctl and lseek syscalls) is outside the
repository; each embedded function takes the kernel's behaviour as an
explicit oracle argument.
-/

/-- `const FIEMAP_PAGE_SIZE: usize = 256` (src/src/lib.rs line 10). -/
def FIEMAP_PAGE_SIZE : Nat := 256

/-- `u64::max_value()`: the maximum representable unsigned 64-bit value. -/
def U64_MAX : Nat := 2 ^ 64 - 1

/-- Linux errno `EOPNOTSUPP` (operation not supported), value 95. -/
def EOPNOTSUPP : Nat := 95

/-- Linux errno `ENXIO` (no such device or address), value 6;
`rustix::io::Errno::NXIO` in the source. -/
def ENXIO : Nat := 6

/-- `struct FiemapExtent` (src/src/lib.rs lines 12-21), `repr(C)`.
`fe_reserved64` has 2 entries (`[u64; 2]`), `fe_reserved` has 3 (`[u32; 3]`). -/
structure FiemapExtent where
  fe_logical : Nat
  fe_physical : Nat
  fe_length : Nat
  fe_reserved64 : List Nat
  fe_flags : Nat
  fe_reserved : List Nat
deriving DecidableEq, Repr

/-- `FiemapExtent::new` (src/src/lib.rs lines 22-33): all fields zero. -/
def FiemapExtent.new : FiemapExtent :=
  { fe_logical := 0
    fe_physical := 0
    fe_length := 0
    fe_reserved64 := List.replicate 2 0
    fe_flags := 0
    fe_reserved := List.replicate 3 0 }

/-- `struct FiemapReq` (src/src/lib.rs lines 35-45), `repr(C)`:
the in/out record exchanged with the kernel FIEMAP ioctl.
`fm_extents` has `FIEMAP_PAGE_SIZE` entries in the source. -/
structure FiemapReq where
  fm_start : Nat
  fm_length : Nat
  fm_flags : Nat
  fm_mapped_extents : Nat
  fm_extent_count : Nat
  fm_reserved : Nat
  fm_extents : List FiemapExtent
deriving DecidableEq, Repr

/-- `FiemapReq::new` (src/src/lib.rs lines 46-58). -/
def FiemapReq.new : FiemapReq :=
  { fm_start := 0
    fm_length := U64_MAX
    fm_flags := 0
    fm_mapped_extents := 0
    fm_extent_count := FIEMAP_PAGE_SIZE
    fm_reserved := 0
    fm_extents := List.replicate FIEMAP_PAGE_SIZE FiemapExtent.new }

/-- The error values produced by the core, mirroring the two shapes of
`anyhow::Error` the source builds: the `bail!("Unuspported filesytem")`
branch, and a raw OS error carrying its errno. -/
inductive CoreError where
  | unsupportedFilesystem
  | osFailure (code : Nat)
deriving DecidableEq, Repr

/-- Observable outcome of one `libc::ioctl(fd, FS_IOC_FIEMAP, &req)` call:
the C return value `ret`, the thread's `last_os_error` errno (meaningful
when `ret ≠ 0`), and the contents of the request record after the call
(the kernel populates it in place on success). -/
structure IoctlOutcome where
  ret : Int
  errno : Nat
  populated : FiemapReq

/-- `quick_extents` (src/src/lib.rs lines 61-73).  The kernel is the
oracle `kernel`, mapping the request record passed by address to the
call's outcome.  The source builds `FiemapReq::new()`, issues a single
ioctl, and classifies a non-zero return: `EOPNOTSUPP` becomes the
distinct unsupported-filesystem error, any other errno is returned as
the raw OS error; on a zero return the populated record is returned. -/
def quick_extents (kernel : FiemapReq → IoctlOutcome) : Except CoreError FiemapReq :=
  let req := FiemapReq.new
  let k := kernel req
  if k.ret ≠ 0 then
    if k.errno = EOPNOTSUPP then Except.error CoreError.unsupportedFilesystem
    else Except.error (CoreError.osFailure k.errno)
  else Except.ok k.populated

/-- `enum SeekOff` (src/src/lib.rs lines 76-80). -/
inductive SeekOff where
  | Offset (off : Nat)
  | EOF
deriving DecidableEq, Repr

/-- Outcome of one `rustix::fs::seek(fd, SeekFrom::Start(to))` syscall:
the new offset on success, or an errno on failure. -/
inductive SeekSysResult where
  | ok (off : Nat)
  | err (errno : Nat)
deriving DecidableEq, Repr

/-- `lseek_to` (src/src/lib.rs lines 83-89).  The kernel seek is the
oracle `seekSys`, mapping the requested absolute target offset to the
syscall's result.  An `ENXIO` failure is translated to `SeekOff::EOF`;
any other failure is propagated; a successful seek's offset is wrapped
in `SeekOff::Offset`. -/
def lseek_to (seekSys : Nat → SeekSysResult) (tgt : Nat) : Except CoreError SeekOff :=
  match seekSys tgt with
  | SeekSysResult.err e =>
      if e = ENXIO then Except.ok SeekOff.EOF
      else Except.error (CoreError.osFailure e)
  | SeekSysResult.ok off => Except.ok (SeekOff.Offset off)

/-- Instrumented run of `quick_extents` against a sequence of kernel
behaviours (`trace i` is the behaviour the i-th ioctl issued on the
descriptor would see).  The body of `quick_extents` contains a single
ioctl invocation and no loop or retry, so a run consults only `trace 0`
and the number of kernel calls issued — the second component — is one. -/
def quick_extentsRun (trace : Nat → FiemapReq → IoctlOutcome) :
    Except CoreError FiemapReq × Nat :=
  (quick_extents (trace 0), 1)

/-- Modelled from the spec: the contract of the kernel FIEMAP
device-control interface, which is not code of this repository.  On a
successful call (zero return) the kernel populates the record in place:
the output count never exceeds the buffer capacity ("Invariant: output
count ≤ buffer capacity") and the request's capacity field and extent
buffer length are preserved. -/
def KernelFiemapContract (kernel : FiemapReq → IoctlOutcome) : Prop :=
  ∀ req, (kernel req).ret = 0 →
    (kernel req).populated.fm_mapped_extents ≤ (kernel req).populated.fm_extent_count ∧
    (kernel req).populated.fm_extent_count = req.fm_extent_count ∧
    (kernel req).populated.fm_extents.length = req.fm_extents.length

/-- Modelled from the spec: the kernel absolute-seek primitive, which is
not code of this repository.  Seeking to an offset at or beyond the
lesser of the file size and the end of the addressable region yields the
designated "no such device or address" errno; otherwise the seek
succeeds and returns the requested offset (an absolute seek from the
start of the file). -/
def kernelSeek (fsize addrEnd : Nat) (tgt : Nat) : SeekSysResult :=
  if min fsize addrEnd ≤ tgt then SeekSysResult.err ENXIO
  else SeekSysResult.ok tgt

/-- Modelled from the spec: the cursor position of the file handle after
a seek — a successful seek repositions the cursor to the returned offset
(a subsequent read begins at that byte); a failed seek leaves it where
it was. -/
def kernelSeekCursor (fsize addrEnd cursor tgt : Nat) : Nat :=
  match kernelSeek fsize addrEnd tgt with
  | SeekSysResult.ok off => off
  | SeekSysResult.err _ => cursor

/-- Modelled from the spec: the parameterised request construction the
spec describes — an optional start offset and an optional length, whose
absence defaults to offset 0 and length "to end of file" (`U64_MAX`).
The source's `quick_extents` takes no such parameters; this definition
exists to compare the spec's interface against the code. -/
def specFiemapRequest (start? len? : Option Nat) : FiemapReq :=
  { FiemapReq.new with
    fm_start := start?.getD 0
    fm_length := len?.getD U64_MAX }

/-- `repr(C)` layout of `FiemapExtent` (src/src/lib.rs lines 12-21):
field names and bit widths in declaration order; the arrays contribute
one entry per element. -/
def fiemapExtentLayout : List (String × Nat) :=
  [("fe_logical", 64), ("fe_physical", 64), ("fe_length", 64),
   ("fe_reserved64[0]", 64), ("fe_reserved64[1]", 64),
   ("fe_flags", 32),
   ("fe_reserved[0]", 32), ("fe_reserved[1]", 32), ("fe_reserved[2]", 32)]

/-- `repr(C)` layout of the `FiemapReq` header fields before the extent
array (src/src/lib.rs lines 35-44): names and bit widths in declaration
order. -/
def fiemapReqHeaderLayout : List (String × Nat) :=
  [("fm_start", 64), ("fm_length", 64),
   ("fm_flags", 32), ("fm_mapped_extents", 32),
   ("fm_extent_count", 32), ("fm_reserved", 32)]

/-- `repr(C)` layout of the whole `FiemapReq` record: the header fields
followed by the `FIEMAP_PAGE_SIZE`-element extent array. -/
def fiemapReqLayout : List (String × Nat) :=
  fiemapReqHeaderLayout ++ (List.replicate FIEMAP_PAGE_SIZE fiemapExtentLayout).flatten

/-- The kernel ABI's field widths for one extent entry, as the spec
states them: 64-bit logical offset, 64-bit physical offset, 64-bit
length, two reserved 64-bit words, 32-bit flags, three reserved 32-bit
words. -/
def abiExtentWidths : List Nat :=
  [64, 64, 64] ++ List.replicate 2 64 ++ [32] ++ List.replicate 3 32

/-- The kernel ABI's field widths for the record header, as the spec
states them: 64-bit start, 64-bit length, 32-bit flags, 32-bit
mapped-count, 32-bit buffer-capacity, 32-bit reserved. -/
def abiReqHeaderWidths : List Nat :=
  [64, 64, 32, 32, 32, 32]

/-- The kernel ABI's field widths for the whole record: the header
widths followed by the extent array's widths. -/
def abiReqWidths : List Nat :=
  abiReqHeaderWidths ++ (List.replicate 256 abiExtentWidths).flatten

/-- C6: `FiemapReq::new` initialises start offset to 0, requested length
to the maximum representable unsigned 64-bit value (the "rest of file"
sentinel), the buffer capacity to the compile-time constant 256, and
every reserved/padding field to zero — in the header and, since all 256
buffer entries equal the all-zero `FiemapExtent::new`, in every extent
entry of the buffer. -/
theorem fiemap_req_new_zero_init :
    FiemapReq.new.fm_start = 0 ∧
    FiemapReq.new.fm_length = U64_MAX ∧
    U64_MAX = 2 ^ 64 - 1 ∧
    FiemapReq.new.fm_flags = 0 ∧
    FiemapReq.new.fm_mapped_extents = 0 ∧
    FiemapReq.new.fm_extent_count = 256 ∧
    FiemapReq.new.fm_reserved = 0 ∧
    FiemapReq.new.fm_extents = List.replicate 256 FiemapExtent.new ∧
    FiemapExtent.new.fe_logical = 0 ∧
    FiemapExtent.new.fe_physical = 0 ∧
    FiemapExtent.new.fe_length = 0 ∧
    FiemapExtent.new.fe_reserved64 = [0, 0] ∧
    FiemapExtent.new.fe_flags = 0 ∧
    FiemapExtent.new.fe_reserved = [0, 0, 0] := by
  refine ⟨rfl, rfl, rfl, rfl, rfl, rfl, rfl, rfl, rfl, rfl, rfl, rfl, rfl, rfl⟩

/-- C9: the extent-query record and each extent entry have exactly the
field order and widths of the kernel ABI: the record header is 64-bit
start, 64-bit length, 32-bit flags, 32-bit mapped-count, 32-bit
buffer-capacity, 32-bit reserved, followed by the extent array; each
extent entry is 64-bit logical offset, 64-bit physical offset, 64-bit
length, two reserved 64-bit words, 32-bit flags, three reserved 32-bit
words (56 bytes per entry, 32 bytes of header). -/
theorem fiemap_layout_matches_abi :
    fiemapReqHeaderLayout.map Prod.snd = abiReqHeaderWidths ∧
    fiemapExtentLayout.map Prod.snd = abiExtentWidths ∧
    fiemapReqLayout.map Prod.snd = abiReqWidths ∧
    (fiemapExtentLayout.map Prod.snd).sum = 56 * 8 ∧
    (fiemapReqHeaderLayout.map Prod.snd).sum = 32 * 8 := by
  refine ⟨rfl, by decide, ?_, by decide, by decide⟩
  have h : fiemapExtentLayout.map Prod.snd = abiExtentWidths := by decide
  show (fiemapReqHeaderLayout ++ (List.replicate FIEMAP_PAGE_SIZE fiemapExtentLayout).flatten).map Prod.snd = abiReqWidths
  rw [List.map_append, List.map_flatten, List.map_replicate, h]
  rfl

/-- C1: `quick_extents` classifies the single ioctl's outcome: a
non-zero return with errno `EOPNOTSUPP` yields the distinct
unsupported-filesystem failure; a non-zero return with any other errno
yields a generic OS failure carrying that errno; success (an `ok`
result) occurs exactly when the call returns zero; and every failure is
one of those two classifications. -/
theorem quick_extents_error_classification (kernel : FiemapReq → IoctlOutcome) :
    ((kernel FiemapReq.new).ret ≠ 0 → (kernel FiemapReq.new).errno = EOPNOTSUPP →
      quick_extents kernel = Except.error CoreError.unsupportedFilesystem) ∧
    ((kernel FiemapReq.new).ret ≠ 0 → (kernel FiemapReq.new).errno ≠ EOPNOTSUPP →
      quick_extents kernel = Except.error (CoreError.osFailure (kernel FiemapReq.new).errno)) ∧
    ((kernel FiemapReq.new).ret = 0 ↔ ∃ out, quick_extents kernel = Except.ok out) ∧
    (∀ e, quick_extents kernel = Except.error e →
      e = CoreError.unsupportedFilesystem ∨ ∃ c, e = CoreError.osFailure c) := by
  unfold quick_extents
  by_cases hret : (kernel FiemapReq.new).ret ≠ 0 <;>
    by_cases herr : (kernel FiemapReq.new).errno = EOPNOTSUPP <;>
    simp_all

/-- C1 witness: a kernel whose ioctl returns -1 with errno 95
(`EOPNOTSUPP`) makes `quick_extents` fail with the distinct
unsupported-filesystem condition. -/
theorem quick_extents_error_classification_witness :
    quick_extents (fun req => ⟨-1, 95, req⟩) = Except.error CoreError.unsupportedFilesystem :=
  (quick_extents_error_classification (fun req => ⟨-1, 95, req⟩)).1 (by decide) rfl

/-- C4: `lseek_to` returns exactly one of two successful outcomes — a
concrete offset or `SeekOff.EOF` — where an `ENXIO` seek failure is
translated into `EOF` rather than propagated, any other seek failure is
propagated as a generic OS failure with its errno, and a successful seek
yields its offset. -/
theorem lseek_to_outcome_classification (seekSys : Nat → SeekSysResult) (tgt : Nat) :
    (seekSys tgt = SeekSysResult.err ENXIO → lseek_to seekSys tgt = Except.ok SeekOff.EOF) ∧
    (∀ e, seekSys tgt = SeekSysResult.err e → e ≠ ENXIO →
      lseek_to seekSys tgt = Except.error (CoreError.osFailure e)) ∧
    (∀ off, seekSys tgt = SeekSysResult.ok off →
      lseek_to seekSys tgt = Except.ok (SeekOff.Offset off)) ∧
    (∀ r, lseek_to seekSys tgt = Except.ok r →
      r = SeekOff.EOF ∨ ∃ off, r = SeekOff.Offset off) := by
  unfold lseek_to
  refine ⟨?_, ?_, ?_, ?_⟩
  · intro h
    rw [h]
    simp
  · intro e h hne
    rw [h]
    simp [hne]
  · intro off h
    rw [h]
  · intro r _
    cases r
    · exact Or.inr ⟨_, rfl⟩
    · exact Or.inl rfl

/-- C4 witness: a seek syscall failing with errno 6 (`ENXIO`) at target
7 is translated by `lseek_to` into the `EOF` marker. -/
theorem lseek_to_outcome_classification_witness :
    lseek_to (fun _ => SeekSysResult.err 6) 7 = Except.ok SeekOff.EOF :=
  (lseek_to_outcome_classification (fun _ => SeekSysResult.err 6) 7).1 rfl

/-- C2: probing an offset at or beyond the lesser of the file size and
the end of the addressable region yields the end-of-region marker
`SeekOff.EOF` — never a raw error and never a concrete offset. -/
theorem lseek_to_past_end_eof (fsize addrEnd tgt : Nat)
    (h : min fsize addrEnd ≤ tgt) :
    lseek_to (kernelSeek fsize addrEnd) tgt = Except.ok SeekOff.EOF := by
  unfold lseek_to kernelSeek
  simp [h]

/-- C2 witness: on a 100-byte file with addressable end 2^63, probing
offset 100 (the file size) yields `EOF`. -/
theorem lseek_to_past_end_eof_witness :
    lseek_to (kernelSeek 100 (2 ^ 63)) 100 = Except.ok SeekOff.EOF :=
  lseek_to_past_end_eof 100 (2 ^ 63) 100 (by decide)

/-- C8: probing a valid in-bounds offset returns exactly the requested
offset, and the file handle's cursor is then positioned there, so a
subsequent read begins at that byte. -/
theorem lseek_to_in_bounds_exact (fsize addrEnd cursor tgt : Nat)
    (h : tgt < min fsize addrEnd) :
    lseek_to (kernelSeek fsize addrEnd) tgt = Except.ok (SeekOff.Offset tgt) ∧
    kernelSeekCursor fsize addrEnd cursor tgt = tgt := by
  have hn : ¬ min fsize addrEnd ≤ tgt := Nat.not_le.mpr h
  simp [lseek_to, kernelSeek, kernelSeekCursor, hn]

/-- C8 witness: on a 100-byte file with addressable end 2^63, probing
offset 42 from cursor 0 returns `Offset 42` and leaves the cursor at
byte 42. -/
theorem lseek_to_in_bounds_exact_witness :
    lseek_to (kernelSeek 100 (2 ^ 63)) 42 = Except.ok (SeekOff.Offset 42) ∧
    kernelSeekCursor 100 (2 ^ 63) 0 42 = 42 :=
  lseek_to_in_bounds_exact 100 (2 ^ 63) 0 42 (by decide)

/-- C10: for every target offset, in-bounds or past the end of file,
whenever `lseek_to` returns a concrete offset that offset equals the
requested target — the seek is absolute from the start of the file. -/
theorem lseek_to_offset_eq_target (fsize addrEnd tgt off : Nat)
    (h : lseek_to (kernelSeek fsize addrEnd) tgt = Except.ok (SeekOff.Offset off)) :
    off = tgt := by
  unfold lseek_to kernelSeek at h
  by_cases hle : min fsize addrEnd ≤ tgt <;> simp_all

/-- C10 witness: on a 10-byte file with addressable end 100, `lseek_to`
returns `Offset 3` for target 3, and the theorem yields 3 = 3. -/
theorem lseek_to_offset_eq_target_witness :
    lseek_to (kernelSeek 10 100) 3 = Except.ok (SeekOff.Offset 3) ∧ 3 = 3 :=
  ⟨rfl, lseek_to_offset_eq_target 10 100 3 3 rfl⟩

/-- Shared lemma: under the kernel FIEMAP contract, a record
successfully returned by `quick_extents` keeps the contract's count
bound and the request's capacity of `FIEMAP_PAGE_SIZE` entries. -/
theorem quick_extents_ok_count_bound (kernel : FiemapReq → IoctlOutcome)
    (hk : KernelFiemapContract kernel) (out : FiemapReq)
    (hok : quick_extents kernel = Except.ok out) :
    out.fm_mapped_extents ≤ out.fm_extent_count ∧ out.fm_extent_count = 256 := by
  unfold quick_extents at hok
  by_cases hret : (kernel FiemapReq.new).ret ≠ 0
  · by_cases herr : (kernel FiemapReq.new).errno = EOPNOTSUPP <;> simp_all
  · push_neg at hret
    simp only [hret] at hok
    simp only [ne_eq, not_true_eq_false, if_false, if_neg] at hok
    obtain ⟨h1, h2, _⟩ := hk FiemapReq.new hret
    have hout : (kernel FiemapReq.new).populated = out := by simp_all
    rw [hout] at h1 h2
    exact ⟨h1, h2⟩

/-- C5: under the kernel FIEMAP contract, every record successfully
returned by `quick_extents` has a mapped-extent count no larger than the
buffer capacity `fm_extent_count`, and that capacity is the compile-time
constant 256 the request was built with. -/
theorem quick_extents_mapped_le_capacity (kernel : FiemapReq → IoctlOutcome)
    (hk : KernelFiemapContract kernel) (out : FiemapReq)
    (hok : quick_extents kernel = Except.ok out) :
    out.fm_mapped_extents ≤ out.fm_extent_count ∧ out.fm_extent_count = 256 :=
  quick_extents_ok_count_bound kernel hk out hok

/-- C5 witness: a well-behaved kernel that zeroes the output count
satisfies the contract, and the record `quick_extents` returns for it
has mapped count 0 ≤ capacity 256. -/
theorem quick_extents_mapped_le_capacity_witness :
    FiemapReq.new.fm_mapped_extents ≤ FiemapReq.new.fm_extent_count ∧
    FiemapReq.new.fm_extent_count = 256 :=
  quick_extents_mapped_le_capacity
    (fun req => ⟨0, 0, { req with fm_mapped_extents := 0 }⟩)
    (fun _ _ => ⟨Nat.zero_le _, rfl, rfl⟩)
    FiemapReq.new rfl

/-- C7: each extent query issues exactly one kernel call and completes
or fails immediately: the instrumented run's call count is one, the
result depends only on the first kernel behaviour in the trace (no retry
and no multi-page continuation), and under the kernel FIEMAP contract a
single call never yields more than the fixed buffer capacity of 256
extents. -/
theorem quick_extents_single_call (t1 t2 : Nat → FiemapReq → IoctlOutcome)
    (h : t1 0 = t2 0) :
    (quick_extentsRun t1).2 = 1 ∧
    quick_extentsRun t1 = quick_extentsRun t2 ∧
    (KernelFiemapContract (t1 0) → ∀ out,
      (quick_extentsRun t1).1 = Except.ok out → out.fm_mapped_extents ≤ 256) := by
  refine ⟨rfl, by rw [quick_extentsRun, quick_extentsRun, h], ?_⟩
  intro hk out hok
  have hcap := quick_extents_ok_count_bound (t1 0) hk out hok
  rw [← hcap.2]
  exact hcap.1

/-- C7 witness: for the well-behaved zeroing kernel (in every trace
position), the run issues one call, is insensitive to the rest of the
trace, and its returned record's mapped count is at most 256. -/
theorem quick_extents_single_call_witness :
    (quick_extentsRun (fun _ req => ⟨0, 0, { req with fm_mapped_extents := 0 }⟩)).2 = 1 ∧
    quick_extentsRun (fun _ req => ⟨0, 0, { req with fm_mapped_extents := 0 }⟩) =
      quick_extentsRun (fun _ req => ⟨0, 0, { req with fm_mapped_extents := 0 }⟩) ∧
    (KernelFiemapContract
        ((fun _ req => ⟨(0 : Int), 0, { req with fm_mapped_extents := 0 }⟩) 0) → ∀ out,
      (quick_extentsRun (fun _ req => ⟨0, 0, { req with fm_mapped_extents := 0 }⟩)).1 =
        Except.ok out → out.fm_mapped_extents ≤ 256) :=
  quick_extents_single_call
    (fun _ req => ⟨0, 0, { req with fm_mapped_extents := 0 }⟩)
    (fun _ req => ⟨0, 0, { req with fm_mapped_extents := 0 }⟩) rfl

/-- C3 counterexample: the code's extent query accepts no range inputs.
Against a kernel that echoes back the record it was handed,
`quick_extents` returns the default whole-file request itself, showing
the request it issues is always `FiemapReq.new`; the spec's
parameterised construction agrees with the code only in the default
case, and a non-default range such as start 4096 produces a request the
code can never issue. -/
theorem quick_extents_no_range_inputs_cex :
    quick_extents (fun req => ⟨0, 0, req⟩) = Except.ok FiemapReq.new ∧
    specFiemapRequest none none = FiemapReq.new ∧
    specFiemapRequest (some 4096) (some 8192) ≠ FiemapReq.new := by
  refine ⟨rfl, rfl, ?_⟩
  intro h
  have := congrArg FiemapReq.fm_start h
  simp [specFiemapRequest, FiemapReq.new] at this

/-- C3 amended: the extent query takes no optional start/length inputs;
its result depends only on the kernel's response to the single default
whole-file request, whose start offset is 0 and whose length is the
"to end of file" sentinel `U64_MAX`. -/
theorem quick_extents_whole_file_only (k1 k2 : FiemapReq → IoctlOutcome)
    (h : k1 FiemapReq.new = k2 FiemapReq.new) :
    quick_extents k1 = quick_extents k2 ∧
    FiemapReq.new.fm_start = 0 ∧ FiemapReq.new.fm_length = U64_MAX := by
  constructor
  · simp only [quick_extents]
    rw [h]
  · exact ⟨rfl, rfl⟩

/-- C3 amended witness: two kernels that agree on the default request
(the echoing kernel and a copy that differs elsewhere) give the same
query result. -/
theorem quick_extents_whole_file_only_witness :
    quick_extents (fun req => ⟨0, 0, req⟩) =
      quick_extents (fun _ => ⟨0, 0, FiemapReq.new⟩) ∧
    FiemapReq.new.fm_start = 0 ∧ FiemapReq.new.fm_length = U64_MAX :=
  quick_extents_whole_file_only
    (fun req => ⟨0, 0, req⟩) (fun _ => ⟨0, 0, FiemapReq.new⟩) rfl
